import Mathlib

/-!
Verification development for the voice-agent session client
(`frontend/src/hooks/useWebRTC.ts` and `frontend/src/App.tsx`).

The client is single-threaded and event-driven: all state mutation happens
inside discrete handlers (user calls `connect` / `disconnect` / `toggleMute`,
transport callbacks `joined-meeting` / `left-meeting` / `error` /
`app-message`).  We embed the mutable state of the hook plus the caller-held
stores of `App.tsx` as one record, each handler as a pure state transformer,
and the whole client as a step function over an event type.  Machine integers
do not occur (the counters are unbounded JavaScript numbers used as ids), and
the runtime value of the TypeScript union `PipelineStatus` is a plain string
(the `as PipelineStatus` cast performs no runtime validation), so pipeline
status is embedded as `String`.
-/

namespace VoiceClient

/-- `ConnectionStatus` from useWebRTC.ts: the hook itself only ever assigns
the three literal values, so an enum is faithful. -/
inductive ConnectionStatus where
  | disconnected
  | connecting
  | connected
  deriving DecidableEq, Repr

/-- The five legal values of the TypeScript union `PipelineStatus`.  At
runtime the status is an arbitrary string (the union is erased), so we keep
the state field as `String` and use this predicate for membership. -/
def isPipelineStatusValue (s : String) : Bool :=
  s = "idle" || s = "listening" || s = "stt" || s = "llm" || s = "tts"

/-- Transcript roles.  The control protocol declares `role` as
`"user" | "assistant"`. -/
inductive Role where
  | user
  | assistant
  deriving DecidableEq, Repr

/-- The string a role interpolates to in the template literal
`\x7b role \x7d-\x7b messageId \x7d`. -/
def Role.toString : Role → String
  | .user => "user"
  | .assistant => "assistant"

/-- `TranscriptMessage` from useWebRTC.ts. -/
structure TranscriptMessage where
  id : String
  role : Role
  text : String
  timestamp : Nat
  final : Bool
  deriving DecidableEq, Repr

/-- `LogMessage` from useWebRTC.ts. -/
structure LogMessage where
  text : String
  timestamp : Nat
  deriving DecidableEq, Repr

/-- The fields of an inbound `transcript` control message
(`role`, `text`, optional `messageId`, `timestamp`, `final`). -/
structure TranscriptPayload where
  role : Role
  text : String
  messageId : Option Nat
  timestamp : Option Nat
  final : Option Bool
  deriving DecidableEq, Repr

/-- Decoded inbound app-message payloads, dispatched on the `type` field by
`handleAppMessage`.  `status` carries an arbitrary string (no validation in
the source); any unrecognized `type` is `other` and is dropped. -/
inductive AppData where
  | status (status : String)
  | transcript (p : TranscriptPayload)
  | log (text : String)
  | other
  deriving DecidableEq, Repr

/-- Result of an awaited transport operation (`leave` / `destroy`): the
promise either resolves or rejects. -/
inductive OpResult where
  | ok
  | fail
  deriving DecidableEq, Repr

/-- The client state: the React state of the `useWebRTC` hook
(`connectionStatus`, `pipelineStatus`, `isMuted`), the transport reference
`callObjectRef` (`hasTransport` is `callObjectRef.current != null`, with the
transport's local-audio flag and a count of `setLocalAudio` calls issued),
the module-level fallback counters `globalUserMessageId` /
`globalAssistantMessageId`, and the caller-held stores of App.tsx
(`messages`, `logs`). -/
structure ClientState where
  connectionStatus : ConnectionStatus
  pipelineStatus : String
  isMuted : Bool
  hasTransport : Bool
  localAudioEnabled : Bool
  audioWrites : Nat
  globalUserMessageId : Nat
  globalAssistantMessageId : Nat
  messages : List TranscriptMessage
  logs : List LogMessage
  deriving DecidableEq, Repr

/-- The initial state: `useState` initializers (`disconnected`, `idle`,
unmuted), a null transport reference, module counters initialized to 0 at
module load, and empty caller stores. -/
def initState : ClientState where
  connectionStatus := .disconnected
  pipelineStatus := "idle"
  isMuted := false
  hasTransport := false
  localAudioEnabled := false
  audioWrites := 0
  globalUserMessageId := 0
  globalAssistantMessageId := 0
  messages := []
  logs := []

/-- The upsert of `App.handleTranscript`: `findIndex` on the id, replace in
place when found, append otherwise. -/
def upsertMessage (prev : List TranscriptMessage) (message : TranscriptMessage) :
    List TranscriptMessage :=
  match prev.findIdx? (fun m => m.id == message.id) with
  | some existingIndex => prev.set existingIndex message
  | none => prev ++ [message]

/-- The bounded log append of `App.handleLog`:
`[...prev.slice(-19), log]` — keep the last 19 entries and append. -/
def appendLog (prev : List LogMessage) (log : LogMessage) : List LogMessage :=
  prev.drop (prev.length - 19) ++ [log]

/-- The composite identity `\x7b role \x7d-\x7b messageId \x7d` minted in
`handleAppMessage`. -/
def mkCompositeId (role : Role) (messageId : Nat) : String :=
  role.toString ++ "-" ++ Nat.repr messageId

/-- Identity resolution, lines 80–85 of useWebRTC.ts: use the explicit
`messageId` if present, otherwise pre-increment the module-level counter of
the message's role.  Returns the numeric id together with the updated
state. -/
def resolveId (s : ClientState) (p : TranscriptPayload) : Nat × ClientState :=
  match p.messageId with
  | some n => (n, s)
  | none =>
    match p.role with
    | .user =>
      (s.globalUserMessageId + 1,
        { s with globalUserMessageId := s.globalUserMessageId + 1 })
    | .assistant =>
      (s.globalAssistantMessageId + 1,
        { s with globalAssistantMessageId := s.globalAssistantMessageId + 1 })

/-- The `TranscriptMessage` constructed in `handleAppMessage` from a payload,
the receive time (`Date.now()`), and the resolved numeric id:
missing `timestamp` defaults to `now`, missing `final` defaults to `true`. -/
def mkTranscriptMessage (p : TranscriptPayload) (now : Nat) (messageId : Nat) :
    TranscriptMessage where
  id := mkCompositeId p.role messageId
  role := p.role
  text := p.text
  timestamp := p.timestamp.getD now
  final := p.final.getD true

/-- `handleAppMessage` from useWebRTC.ts, with the caller's store updates
(`App.handleTranscript`, `App.handleLog`) applied through the callback refs.
`now` is `Date.now()` at receipt.  Note: the `status` branch consults no
connection state and validates nothing; the `transcript` branch touches the
fallback counters only when `messageId` is absent. -/
def handleAppMessage (s : ClientState) (now : Nat) (data : AppData) : ClientState :=
  match data with
  | .status status =>
    { s with pipelineStatus := status }
  | .transcript p =>
    let r := resolveId s p
    let message := mkTranscriptMessage p now r.1
    { r.2 with messages := upsertMessage r.2.messages message }
  | .log text =>
    { s with logs := appendLog s.logs { text := text, timestamp := now } }
  | .other => s

/-- `disconnect` from useWebRTC.ts.  The body is
`if (ref) { await leave(); await destroy(); ref = null }` followed by the two
`setState` calls, with no try/catch: a rejecting `leave` (or `destroy`)
aborts the async function, so nothing after the failed await executes. -/
def disconnect (s : ClientState) (leaveResult destroyResult : OpResult) :
    ClientState :=
  if s.hasTransport then
    match leaveResult with
    | .fail => s
    | .ok =>
      match destroyResult with
      | .fail => s
      | .ok =>
        { s with
            hasTransport := false
            connectionStatus := .disconnected
            pipelineStatus := "idle" }
  else
    { s with connectionStatus := .disconnected, pipelineStatus := "idle" }

/-- `toggleMute` from useWebRTC.ts: guarded on the transport reference; reads
`localAudio() === false` as the current mute state, writes its value back via
`setLocalAudio` (counted in `audioWrites`), and reports the negation. -/
def toggleMute (s : ClientState) : ClientState :=
  if s.hasTransport then
    let currentMuteState : Bool := s.localAudioEnabled == false
    { s with
        localAudioEnabled := currentMuteState
        audioWrites := s.audioWrites + 1
        isMuted := !currentMuteState }
  else s

/-- The discrete events that drive the client.  `connectStart` is the start
of `connect()` up to `setConnectionStatus('connecting')`; `connectCredsOk`
is the resumption after a successful credential fetch (creates the call
object with `audioSource: true` and registers the handlers);
`connectCredsFail` is the catch block when the fetch fails before a
transport exists.  The transport events (`joinedMeeting`, `leftMeeting`,
`transportError`, `appMessage`) fire only while the handlers are registered,
i.e. while the transport exists. -/
inductive Event where
  | connectStart
  | connectCredsOk
  | connectCredsFail (leaveResult destroyResult : OpResult)
  | joinedMeeting
  | leftMeeting
  | transportError (leaveResult destroyResult : OpResult)
  | appMessage (now : Nat) (data : AppData)
  | disconnectCall (leaveResult destroyResult : OpResult)
  | toggleMuteCall
  deriving DecidableEq, Repr

/-- One event handled, before the React effects of App.tsx run. -/
def rawStep (s : ClientState) (e : Event) : ClientState :=
  match e with
  | .connectStart =>
    if s.connectionStatus != .disconnected then s
    else { s with connectionStatus := .connecting }
  | .connectCredsOk =>
    if s.connectionStatus == .connecting && !s.hasTransport then
      { s with hasTransport := true, localAudioEnabled := true }
    else s
  | .connectCredsFail leaveResult destroyResult =>
    if s.connectionStatus == .connecting && !s.hasTransport then
      disconnect { s with connectionStatus := .disconnected }
        leaveResult destroyResult
    else s
  | .joinedMeeting =>
    if s.hasTransport then
      { s with connectionStatus := .connected, pipelineStatus := "idle" }
    else s
  | .leftMeeting =>
    if s.hasTransport then
      { s with connectionStatus := .disconnected, pipelineStatus := "idle" }
    else s
  | .transportError leaveResult destroyResult =>
    if s.hasTransport then
      disconnect { s with connectionStatus := .disconnected }
        leaveResult destroyResult
    else s
  | .appMessage now data =>
    if s.hasTransport then handleAppMessage s now data else s
  | .disconnectCall leaveResult destroyResult =>
    disconnect s leaveResult destroyResult
  | .toggleMuteCall => toggleMute s

/-- `isConnected` as derived in the hook's return value. -/
def isConnected (s : ClientState) : Bool :=
  s.connectionStatus == .connected

/-- The App.tsx effect `if (!isConnected) \x7b setLogs([]); setMessages([]) \x7d`
with dependency array `[isConnected]`: it runs only when the derived boolean
changes value across a step, and clears the stores when the new value is
false. -/
def applyClearEffect (old new : ClientState) : ClientState :=
  if isConnected old != isConnected new && !(isConnected new) then
    { new with messages := [], logs := [] }
  else new

/-- One full step of the client: the event handler followed by the App.tsx
clearing effect. -/
def step (s : ClientState) (e : Event) : ClientState :=
  applyClearEffect s (rawStep s e)

/-- Run the client from module load on a list of events. -/
def run (events : List Event) : ClientState :=
  events.foldl step initState

end VoiceClient

namespace VoiceClient

/-! ### Basic lemmas about the upsert of `App.handleTranscript` -/

theorem upsertMessage_nil (m : TranscriptMessage) : upsertMessage [] m = [m] := rfl

theorem upsertMessage_cons (e : TranscriptMessage) (l : List TranscriptMessage)
    (m : TranscriptMessage) :
    upsertMessage (e :: l) m =
      if e.id == m.id then m :: l else e :: upsertMessage l m := by
  unfold upsertMessage
  rw [List.findIdx?_cons]
  by_cases h : e.id == m.id
  · simp [h]
  · simp only [h, if_false, Bool.false_eq_true]
    rw [List.findIdx?_succ]
    cases hfi : l.findIdx? (fun x => x.id == m.id) with
    | none => simp
    | some i => simp

/-- After an upsert, the first stored entry matching the upserted message's
id is that message itself: the store reflects the last-applied update. -/
theorem find?_upsertMessage (l : List TranscriptMessage) (m : TranscriptMessage) :
    (upsertMessage l m).find? (fun e => e.id == m.id) = some m := by
  induction l with
  | nil =>
    rw [upsertMessage_nil]
    simp [List.find?]
  | cons e l ih =>
    rw [upsertMessage_cons]
    by_cases h : e.id == m.id <;> simp [h, List.find?, ih]

/-- An upsert leaves exactly `max (previous count) 1` entries matching the
upserted id: it appends when there was none and replaces otherwise. -/
theorem countP_upsertMessage (l : List TranscriptMessage) (m : TranscriptMessage) :
    (upsertMessage l m).countP (fun e => e.id == m.id) =
      max (l.countP (fun e => e.id == m.id)) 1 := by
  induction l with
  | nil =>
    rw [upsertMessage_nil]
    simp
  | cons e l ih =>
    rw [upsertMessage_cons]
    by_cases h : e.id == m.id
    · rw [if_pos h]
      simp only [List.countP_cons, beq_self_eq_true, h, if_true]
      omega
    · have h' : (e.id == m.id) = false := by simpa using h
      rw [if_neg h]
      simp [List.countP_cons, h', ih]

/-- When no stored entry carries the message's id, the upsert is an append. -/
theorem upsertMessage_of_not_mem (l : List TranscriptMessage)
    (m : TranscriptMessage) (h : ∀ e ∈ l, ¬e.id = m.id) :
    upsertMessage l m = l ++ [m] := by
  unfold upsertMessage
  have : l.findIdx? (fun x => x.id == m.id) = none := by
    rw [List.findIdx?_eq_none_iff]
    intro x hx
    simpa using h x hx
  rw [this]

end VoiceClient

namespace VoiceClient

/-! ### The bounded log buffer -/

theorem drop_append_of_le_len {α : Type} (l₁ l₂ : List α) (n : Nat)
    (h : n ≤ l₁.length) : (l₁ ++ l₂).drop n = l₁.drop n ++ l₂ := by
  conv_lhs => rw [← List.take_append_drop n l₁]
  rw [List.append_assoc,
    List.drop_left' ((List.length_take n l₁).trans (Nat.min_eq_left h))]

/-- Folding the bounded append of `App.handleLog` from the empty buffer
always yields exactly the suffix of the last (at most) 20 entries, in
arrival order. -/
theorem foldl_appendLog (entries : List LogMessage) :
    entries.foldl appendLog [] = entries.drop (entries.length - 20) := by
  induction entries using List.reverseRecOn with
  | nil => rfl
  | append_singleton qs x ih =>
    rw [List.foldl_append, List.foldl_cons, List.foldl_nil, ih]
    unfold appendLog
    rw [List.length_drop, List.length_append, List.length_cons,
      List.length_nil]
    by_cases h : qs.length ≤ 19
    · have h1 : qs.length - 20 = 0 := by omega
      have h3 : qs.length + (0 + 1) - 20 = 0 := by omega
      simp only [h1, h3, Nat.sub_zero, List.drop_zero]
      have h2 : qs.length - 19 = 0 := by omega
      simp [h2]
    · have h2 : qs.length - (qs.length - 20) - 19 = 1 := by omega
      have h3 : qs.length + (0 + 1) - 20 = qs.length - 19 := by omega
      rw [h2, h3, List.drop_drop,
        drop_append_of_le_len _ _ _ (by omega : qs.length - 19 ≤ qs.length)]
      have h4 : qs.length - 20 + 1 = qs.length - 19 := by omega
      rw [h4]

/-! ### Composite transcript identities -/

/-- The composite identity determines the role: a `user-…` identity and an
`assistant-…` identity are never the same string, whatever the numeric
parts. -/
theorem mkCompositeId_role_eq (r₁ r₂ : Role) (n₁ n₂ : Nat)
    (h : mkCompositeId r₁ n₁ = mkCompositeId r₂ n₂) : r₁ = r₂ := by
  cases r₁ <;> cases r₂ <;> try rfl
  all_goals
    exfalso
    have hd := congrArg String.data h
    simp [mkCompositeId, Role.toString, String.data_append] at hd

/-! ### Field-preservation lemmas for the handlers -/

theorem applyClearEffect_eq_or (old new : ClientState) :
    applyClearEffect old new = new ∨
    applyClearEffect old new = { new with messages := [], logs := [] } := by
  unfold applyClearEffect
  split
  · right
    rfl
  · left
    rfl

/-- `handleAppMessage` never touches the connection status, the transport
reference, the mute flag, the local-audio state, or the write counter. -/
theorem handleAppMessage_preserves (s : ClientState) (now : Nat) (data : AppData) :
    (handleAppMessage s now data).connectionStatus = s.connectionStatus ∧
    (handleAppMessage s now data).hasTransport = s.hasTransport ∧
    (handleAppMessage s now data).isMuted = s.isMuted ∧
    (handleAppMessage s now data).localAudioEnabled = s.localAudioEnabled ∧
    (handleAppMessage s now data).audioWrites = s.audioWrites := by
  cases data with
  | status st => simp [handleAppMessage]
  | transcript p =>
    cases hm : p.messageId with
    | some n => simp [handleAppMessage, resolveId, hm]
    | none => cases hr : p.role <;> simp [handleAppMessage, resolveId, hm, hr]
  | log t => simp [handleAppMessage]
  | other => simp [handleAppMessage]

/-- The fallback counters never decrease across `handleAppMessage`, and the
non-transcript branches leave them unchanged. -/
theorem handleAppMessage_counters_le (s : ClientState) (now : Nat) (data : AppData) :
    s.globalUserMessageId ≤ (handleAppMessage s now data).globalUserMessageId ∧
    s.globalAssistantMessageId ≤ (handleAppMessage s now data).globalAssistantMessageId := by
  cases data with
  | status st => simp [handleAppMessage]
  | transcript p =>
    cases hm : p.messageId with
    | some n => simp [handleAppMessage, resolveId, hm]
    | none =>
      cases hr : p.role <;> simp [handleAppMessage, resolveId, hm, hr]
  | log t => simp [handleAppMessage]
  | other => simp [handleAppMessage]

/-- `disconnect` never touches the fallback counters. -/
theorem disconnect_counters (s : ClientState) (lr dr : OpResult) :
    (disconnect s lr dr).globalUserMessageId = s.globalUserMessageId ∧
    (disconnect s lr dr).globalAssistantMessageId = s.globalAssistantMessageId := by
  unfold disconnect
  split
  · cases lr <;> cases dr <;> simp
  · simp

/-- `toggleMute` never touches the fallback counters. -/
theorem toggleMute_counters (s : ClientState) :
    (toggleMute s).globalUserMessageId = s.globalUserMessageId ∧
    (toggleMute s).globalAssistantMessageId = s.globalAssistantMessageId := by
  unfold toggleMute
  split <;> simp

/-- No event of the client ever decreases either fallback counter: the code
contains no write that resets them. -/
theorem step_counters_le (s : ClientState) (e : Event) :
    s.globalUserMessageId ≤ (step s e).globalUserMessageId ∧
    s.globalAssistantMessageId ≤ (step s e).globalAssistantMessageId := by
  have hclear := applyClearEffect_eq_or s (rawStep s e)
  have hraw : s.globalUserMessageId ≤ (rawStep s e).globalUserMessageId ∧
      s.globalAssistantMessageId ≤ (rawStep s e).globalAssistantMessageId := by
    cases e with
    | connectStart =>
      simp only [rawStep]
      split <;> simp
    | connectCredsOk =>
      simp only [rawStep]
      split <;> simp
    | connectCredsFail lr dr =>
      simp only [rawStep]
      split
      · have h := disconnect_counters
          { s with connectionStatus := .disconnected } lr dr
        simp [h.1, h.2]
      · simp
    | joinedMeeting =>
      simp only [rawStep]
      split <;> simp
    | leftMeeting =>
      simp only [rawStep]
      split <;> simp
    | transportError lr dr =>
      simp only [rawStep]
      split
      · have h := disconnect_counters
          { s with connectionStatus := .disconnected } lr dr
        simp [h.1, h.2]
      · simp
    | appMessage now data =>
      simp only [rawStep]
      split
      · exact handleAppMessage_counters_le s now data
      · simp
    | disconnectCall lr dr =>
      have h := disconnect_counters s lr dr
      simp only [rawStep]
      simp [h.1, h.2]
    | toggleMuteCall =>
      have h := toggleMute_counters s
      simp only [rawStep]
      simp [h.1, h.2]
  unfold step
  rcases hclear with h | h <;> rw [h]
  · exact hraw
  · simpa using hraw

/-- Counter monotonicity extends to any list of intervening events. -/
theorem foldl_step_counters_le (s : ClientState) (events : List Event) :
    s.globalUserMessageId ≤ (events.foldl step s).globalUserMessageId ∧
    s.globalAssistantMessageId ≤ (events.foldl step s).globalAssistantMessageId := by
  induction events generalizing s with
  | nil => simp
  | cons e rest ih =>
    rw [List.foldl_cons]
    have h1 := step_counters_le s e
    have h2 := ih (step s e)
    exact ⟨h1.1.trans h2.1, h1.2.trans h2.2⟩

end VoiceClient

namespace VoiceClient

/-! ### Step-level helper lemmas shared by several claims -/

/-- With a transport attached, a `status` app message rewrites the pipeline
status to the carried value and changes nothing else. -/
theorem step_appMessage_status (s : ClientState) (now : Nat) (v : String)
    (h : s.hasTransport = true) :
    step s (.appMessage now (.status v)) = { s with pipelineStatus := v } := by
  have hraw : rawStep s (.appMessage now (.status v))
      = { s with pipelineStatus := v } := by
    simp [rawStep, h, handleAppMessage]
  unfold step
  rw [hraw]
  unfold applyClearEffect
  simp [isConnected]

/-- With no transport there is no registered handler, so an app message
leaves the state untouched. -/
theorem step_appMessage_noTransport (s : ClientState) (now : Nat)
    (d : AppData) (h : s.hasTransport = false) :
    step s (.appMessage now d) = s := by
  unfold step
  simp only [rawStep, h]
  unfold applyClearEffect
  simp

/-- The clearing effect of App.tsx never changes the connection status. -/
theorem isConnected_applyClearEffect (old new : ClientState) :
    isConnected (applyClearEffect old new) = isConnected new := by
  unfold applyClearEffect
  split <;> simp [isConnected]

end VoiceClient

namespace VoiceClient

/-! ### Claim C1 -/

/-- C1 counterexample: after `left-meeting` the connection state is
`disconnected` and the transport (with its `app-message` handler) is still
attached; a `status` message delivered then is NOT ignored — it moves the
pipeline status from `idle` to `tts`.  This refutes the claim that status
messages received outside `connected` leave the state unchanged. -/
theorem C1_counterexample :
    (run [.connectStart, .connectCredsOk, .joinedMeeting,
        .leftMeeting]).connectionStatus = ConnectionStatus.disconnected ∧
    (run [.connectStart, .connectCredsOk, .joinedMeeting,
        .leftMeeting]).pipelineStatus = "idle" ∧
    (run [.connectStart, .connectCredsOk, .joinedMeeting, .leftMeeting,
        .appMessage 0 (.status "tts")]).pipelineStatus = "tts" := by
  refine ⟨rfl, rfl, rfl⟩

/-- C1 (amended): `handleAppMessage` consults no connection state, so a
`status` control message updates the pipeline status to the carried value
whenever the transport (and therefore the registered handler) exists,
regardless of the connection state; only when no transport is attached is
the message ignored (no handler runs, the state is unchanged). -/
theorem C1_status_updates_iff_transport (s : ClientState) (now : Nat)
    (v : String) :
    (s.hasTransport = true →
      (step s (.appMessage now (.status v))).pipelineStatus = v) ∧
    (s.hasTransport = false →
      step s (.appMessage now (.status v)) = s) := by
  constructor
  · intro h
    rw [step_appMessage_status s now v h]
  · intro h
    exact step_appMessage_noTransport s now _ h

/-- Witness for C1: both hypotheses discharged at concrete states. -/
theorem C1_status_updates_iff_transport_witness :
    ((run [.connectStart, .connectCredsOk]).hasTransport = true ∧
      (step (run [.connectStart, .connectCredsOk])
        (.appMessage 3 (.status "llm"))).pipelineStatus = "llm") ∧
    (initState.hasTransport = false ∧
      step initState (.appMessage 3 (.status "llm")) = initState) :=
  ⟨⟨by decide,
    (C1_status_updates_iff_transport (run [.connectStart, .connectCredsOk])
      3 "llm").1 (by decide)⟩,
   ⟨by decide,
    (C1_status_updates_iff_transport initState 3 "llm").2 (by decide)⟩⟩

/-! ### Claim C2 -/

/-- C2 counterexample: (a) from a reachable `connected` state with an active
transport, `disconnect` whose `leave()` rejects changes nothing — the state
is NOT unconditionally set to `disconnected`/`idle`; (b) with no active
transport (mid-`connecting`), `disconnect` is NOT a no-op: it moves the
connection state from `connecting` to `disconnected`. -/
theorem C2_counterexample :
    ((run [.connectStart, .connectCredsOk, .joinedMeeting]).connectionStatus
        = ConnectionStatus.connected ∧
      step (run [.connectStart, .connectCredsOk, .joinedMeeting])
          (.disconnectCall .fail .ok)
        = run [.connectStart, .connectCredsOk, .joinedMeeting]) ∧
    ((run [.connectStart]).hasTransport = false ∧
      (step (run [.connectStart]) (.disconnectCall .ok .ok)).connectionStatus
        ≠ (run [.connectStart]).connectionStatus) := by
  refine ⟨⟨by decide, by decide⟩, ⟨by decide, by decide⟩⟩

/-- C2 (amended): with no active transport, `disconnect()` still always sets
the connection state to `disconnected` and the pipeline to `idle` (a no-op
only when the state already was exactly that); with an active transport the
teardown and the state writes happen only when both `leave` and `destroy`
resolve — if either rejects, the rejection aborts the function and
`disconnect` changes nothing.  Repeating a successful `disconnect` is
idempotent. -/
theorem C2_disconnect_behaviour (s : ClientState) (lr dr : OpResult) :
    (s.hasTransport = false →
      disconnect s lr dr =
        { s with connectionStatus := .disconnected, pipelineStatus := "idle" }) ∧
    (s.hasTransport = true → lr = .ok → dr = .ok →
      disconnect s lr dr =
        { s with hasTransport := false, connectionStatus := .disconnected,
                 pipelineStatus := "idle" }) ∧
    (s.hasTransport = true → (lr = .fail ∨ dr = .fail) →
      disconnect s lr dr = s) ∧
    disconnect (disconnect s .ok .ok) .ok .ok = disconnect s .ok .ok := by
  refine ⟨?_, ?_, ?_, ?_⟩
  · intro h
    unfold disconnect
    rw [h]
    simp
  · intro h h1 h2
    subst h1
    subst h2
    unfold disconnect
    rw [h]
    simp
  · intro h hfail
    unfold disconnect
    rw [h]
    rcases hfail with h1 | h1
    · subst h1
      simp
    · subst h1
      cases lr <;> simp
  · unfold disconnect
    by_cases h : s.hasTransport = true <;> simp [h]

/-- Witness for C2: all three hypothesis groups discharged concretely. -/
theorem C2_disconnect_behaviour_witness :
    ((run [.connectStart]).hasTransport = false ∧
      disconnect (run [.connectStart]) .ok .ok =
        { (run [.connectStart]) with connectionStatus := .disconnected, pipelineStatus := "idle" }) ∧
    ((run [.connectStart, .connectCredsOk, .joinedMeeting]).hasTransport = true ∧
      disconnect (run [.connectStart, .connectCredsOk, .joinedMeeting]) .fail .ok
        = run [.connectStart, .connectCredsOk, .joinedMeeting]) :=
  ⟨⟨by decide,
    (C2_disconnect_behaviour (run [.connectStart]) .ok .ok).1 (by decide)⟩,
   ⟨by decide,
    (C2_disconnect_behaviour
        (run [.connectStart, .connectCredsOk, .joinedMeeting]) .fail .ok).2.2.1
      (by decide) (Or.inl rfl)⟩⟩

/-! ### Claim C6 -/

/-- C6 counterexample: a `status` message carrying `"bogus"` — not one of
the five enum values — is written verbatim into the pipeline status, leaving
it outside the enum set.  The `as PipelineStatus` cast performs no runtime
validation. -/
theorem C6_counterexample :
    (run [.connectStart, .connectCredsOk, .joinedMeeting,
        .appMessage 0 (.status "bogus")]).pipelineStatus = "bogus" ∧
    isPipelineStatusValue
      (run [.connectStart, .connectCredsOk, .joinedMeeting,
        .appMessage 0 (.status "bogus")]).pipelineStatus = false := by
  refine ⟨rfl, by decide⟩

/-- C6 (amended): after a `status` control message the pipeline status is
exactly the string the message carried — the handler validates nothing — so
the status remains in the enum set \x7bidle, listening, stt, llm, tts\x7d
exactly when the carried value is a member. -/
theorem C6_status_no_validation (s : ClientState) (now : Nat) (v : String)
    (h : s.hasTransport = true) :
    (step s (.appMessage now (.status v))).pipelineStatus = v ∧
    isPipelineStatusValue
        (step s (.appMessage now (.status v))).pipelineStatus
      = isPipelineStatusValue v := by
  rw [step_appMessage_status s now v h]
  exact ⟨rfl, rfl⟩

/-- Witness for C6. -/
theorem C6_status_no_validation_witness :
    (run [.connectStart, .connectCredsOk, .joinedMeeting]).hasTransport = true ∧
    (step (run [.connectStart, .connectCredsOk, .joinedMeeting])
        (.appMessage 0 (.status "zzz"))).pipelineStatus = "zzz" :=
  ⟨by decide,
    (C6_status_no_validation (run [.connectStart, .connectCredsOk, .joinedMeeting])
      0 "zzz" (by decide)).1⟩

/-! ### Claim C7 -/

/-- C7: the caller's log buffer, built by folding `handleLog` over the
arriving entries, is always exactly the suffix of the most recent (at most)
20 entries in arrival order — hence it never exceeds 20 entries — and
appending to a buffer that already holds 20 entries drops the oldest entry
first. -/
theorem C7_log_buffer_bounded (entries : List LogMessage)
    (prev : List LogMessage) (log : LogMessage) (h : prev.length = 20) :
    (entries.foldl appendLog []).length ≤ 20 ∧
    entries.foldl appendLog [] = entries.drop (entries.length - 20) ∧
    appendLog prev log = prev.drop 1 ++ [log] := by
  refine ⟨?_, foldl_appendLog entries, ?_⟩
  · rw [foldl_appendLog, List.length_drop]
    omega
  · unfold appendLog
    rw [h]

/-- Witness for C7: 25 arrivals leave 20 entries, and one append to a full
buffer of 20 evicts the head. -/
theorem C7_log_buffer_bounded_witness :
    ((((List.range 25).map
        (fun i => ({ text := "e", timestamp := i } : LogMessage))).foldl
          appendLog []).length ≤ 20 ∧
      ((List.range 25).map
        (fun i => ({ text := "e", timestamp := i } : LogMessage))).foldl
          appendLog []
        = (((List.range 25).map
            (fun i => ({ text := "e", timestamp := i } : LogMessage)))).drop
              ((((List.range 25).map
                (fun i => ({ text := "e", timestamp := i } : LogMessage)))).length
                - 20) ∧
      appendLog
          ((List.range 20).map
            (fun i => ({ text := "p", timestamp := i } : LogMessage)))
          { text := "l", timestamp := 99 }
        = ((List.range 20).map
            (fun i => ({ text := "p", timestamp := i } : LogMessage))).drop 1
            ++ [{ text := "l", timestamp := 99 }]) :=
  C7_log_buffer_bounded _ _ _ (by decide)

end VoiceClient

namespace VoiceClient

/-! ### Claim C8 -/

/-- C8 counterexample: `isMuted` survives a disconnect while the new
transport starts with local audio enabled, so a reachable state has
`isMuted = true` with audio enabled; two `toggleMute` calls from that state
leave `isMuted = false` — not the original value.  The no-transport clause
and the two-state-change clause hold, but the involution claim fails. -/
theorem C8_counterexample :
    (run [.connectStart, .connectCredsOk, .joinedMeeting, .toggleMuteCall,
        .disconnectCall .ok .ok, .connectStart, .connectCredsOk,
        .joinedMeeting]).hasTransport = true ∧
    (run [.connectStart, .connectCredsOk, .joinedMeeting, .toggleMuteCall,
        .disconnectCall .ok .ok, .connectStart, .connectCredsOk,
        .joinedMeeting]).isMuted = true ∧
    (run [.connectStart, .connectCredsOk, .joinedMeeting, .toggleMuteCall,
        .disconnectCall .ok .ok, .connectStart, .connectCredsOk,
        .joinedMeeting, .toggleMuteCall, .toggleMuteCall]).isMuted = false := by
  refine ⟨by decide, by decide, by decide⟩

/-- C8 (amended): with an active transport each `toggleMute` flips the
transport's local-audio state and issues exactly one `setLocalAudio` write,
so two calls restore the local-audio state and issue exactly two writes; the
reported `isMuted` returns to its original value after two calls whenever it
agreed with the transport (`isMuted = !localAudioEnabled`) beforehand — the
agreement can be broken by a reconnect, because `isMuted` survives
`disconnect` while a fresh transport starts unmuted.  With no active
transport `toggleMute` changes nothing. -/
theorem C8_toggleMute_behaviour (s : ClientState) :
    (s.hasTransport = true →
      (toggleMute s).localAudioEnabled = !s.localAudioEnabled ∧
      (toggleMute s).audioWrites = s.audioWrites + 1 ∧
      (toggleMute (toggleMute s)).localAudioEnabled = s.localAudioEnabled ∧
      (toggleMute (toggleMute s)).audioWrites = s.audioWrites + 2 ∧
      (s.isMuted = !s.localAudioEnabled →
        (toggleMute (toggleMute s)).isMuted = s.isMuted)) ∧
    (s.hasTransport = false → toggleMute s = s) := by
  constructor
  · intro h
    unfold toggleMute
    cases ha : s.localAudioEnabled <;> simp [h, ha]
  · intro h
    unfold toggleMute
    simp [h]

/-- Witness for C8: a freshly joined transport (unmuted and consistent) and
the empty initial state. -/
theorem C8_toggleMute_behaviour_witness :
    ((run [.connectStart, .connectCredsOk, .joinedMeeting]).hasTransport = true ∧
      (toggleMute (toggleMute
        (run [.connectStart, .connectCredsOk, .joinedMeeting]))).isMuted
        = (run [.connectStart, .connectCredsOk, .joinedMeeting]).isMuted) ∧
    (initState.hasTransport = false ∧ toggleMute initState = initState) :=
  ⟨⟨by decide,
    ((C8_toggleMute_behaviour
        (run [.connectStart, .connectCredsOk, .joinedMeeting])).1
      (by decide)).2.2.2.2 (by decide)⟩,
   ⟨by decide, (C8_toggleMute_behaviour initState).2 (by decide)⟩⟩

/-! ### Claim C9 -/

/-- C9 counterexample: after `left-meeting` the client is not connected and
the clearing effect has run, yet the transport reference (and handler) is
still attached; a `transcript` app message delivered then repopulates the
caller's message list, so a reachable not-connected state has a non-empty
transcript store. -/
theorem C9_counterexample :
    isConnected (run [.connectStart, .connectCredsOk, .joinedMeeting,
        .leftMeeting,
        .appMessage 7 (.transcript ⟨.assistant, "x", none, none, none⟩)])
      = false ∧
    (run [.connectStart, .connectCredsOk, .joinedMeeting, .leftMeeting,
        .appMessage 7 (.transcript ⟨.assistant, "x", none, none, none⟩)]).messages
      ≠ [] := by
  refine ⟨by decide, by decide⟩

/-- C9 (amended): the stores start empty, and at every step that moves the
client out of `connected` the App.tsx effect clears both the transcript list
and the log buffer; the stores can however be repopulated afterwards by app
messages arriving through a still-attached transport while not connected. -/
theorem C9_clear_on_disconnect (s : ClientState) (e : Event)
    (h1 : isConnected s = true) (h2 : isConnected (step s e) = false) :
    ((step s e).messages = [] ∧ (step s e).logs = []) ∧
    initState.messages = [] ∧ initState.logs = [] := by
  refine ⟨?_, rfl, rfl⟩
  have hraw : isConnected (rawStep s e) = false := by
    have := isConnected_applyClearEffect s (rawStep s e)
    unfold step at h2
    rw [this] at h2
    exact h2
  unfold step applyClearEffect
  rw [h1, hraw]
  simp

/-- Witness for C9: the `left-meeting` transition from a connected state. -/
theorem C9_clear_on_disconnect_witness :
    (isConnected (run [.connectStart, .connectCredsOk, .joinedMeeting]) = true ∧
      isConnected (step (run [.connectStart, .connectCredsOk, .joinedMeeting])
        .leftMeeting) = false) ∧
    ((step (run [.connectStart, .connectCredsOk, .joinedMeeting])
        .leftMeeting).messages = [] ∧
      (step (run [.connectStart, .connectCredsOk, .joinedMeeting])
        .leftMeeting).logs = []) :=
  ⟨⟨by decide, by decide⟩,
    (C9_clear_on_disconnect (run [.connectStart, .connectCredsOk, .joinedMeeting])
      .leftMeeting (by decide) (by decide)).1⟩

end VoiceClient

namespace VoiceClient

/-! ### Claim C3 -/

/-- C3 counterexample: an update carrying `final: false` for an id whose
stored entry already has `final: true` replaces the entry wholesale — the
stored `final` reverts from `true` to `false`, so `final` is not monotonic
under the upsert. -/
theorem C3_counterexample :
    (run [.connectStart, .connectCredsOk, .joinedMeeting,
      .appMessage 1 (.transcript ⟨.user, "hi", some 1, none, some true⟩)]).messages
      = [{ id := "user-1", role := .user, text := "hi", timestamp := 1,
           final := true }] ∧
    (run [.connectStart, .connectCredsOk, .joinedMeeting,
      .appMessage 1 (.transcript ⟨.user, "hi", some 1, none, some true⟩),
      .appMessage 2 (.transcript ⟨.user, "hi there", some 1, none, some false⟩)]).messages
      = [{ id := "user-1", role := .user, text := "hi there", timestamp := 2,
           final := false }] := by
  refine ⟨by decide, by decide⟩

/-- C3 (amended): for a fixed id the role indeed never changes — the
composite id embeds the role, so any two handler-minted messages with the
same id carry the same role — but `final` is NOT monotonic: the upsert
replaces the stored entry with the incoming message wholesale, so the stored
entry for an id always carries the `final` (and `text`) of the last-applied
update, and a later `final: false` update reverts a `final: true` entry. -/
theorem C3_role_stable_final_last_write
    (p₁ p₂ : TranscriptPayload) (now₁ now₂ n₁ n₂ : Nat)
    (h : (mkTranscriptMessage p₁ now₁ n₁).id = (mkTranscriptMessage p₂ now₂ n₂).id) :
    (mkTranscriptMessage p₁ now₁ n₁).role = (mkTranscriptMessage p₂ now₂ n₂).role ∧
    ∀ (l : List TranscriptMessage) (m : TranscriptMessage),
      (upsertMessage l m).find? (fun e => e.id == m.id) = some m := by
  constructor
  · exact mkCompositeId_role_eq p₁.role p₂.role n₁ n₂ h
  · exact find?_upsertMessage

/-- Witness for C3. -/
theorem C3_role_stable_final_last_write_witness :
    (mkTranscriptMessage ⟨.user, "a", some 1, none, some true⟩ 0 1).id
      = (mkTranscriptMessage ⟨.user, "b", some 1, none, some false⟩ 5 1).id ∧
    (mkTranscriptMessage ⟨.user, "a", some 1, none, some true⟩ 0 1).role
      = (mkTranscriptMessage ⟨.user, "b", some 1, none, some false⟩ 5 1).role ∧
    (upsertMessage
        [mkTranscriptMessage ⟨.user, "a", some 1, none, some true⟩ 0 1]
        (mkTranscriptMessage ⟨.user, "b", some 1, none, some false⟩ 5 1)).find?
        (fun e => e.id ==
          (mkTranscriptMessage ⟨.user, "b", some 1, none, some false⟩ 5 1).id)
      = some (mkTranscriptMessage ⟨.user, "b", some 1, none, some false⟩ 5 1) := by
  have h := C3_role_stable_final_last_write
    ⟨.user, "a", some 1, none, some true⟩ ⟨.user, "b", some 1, none, some false⟩
    0 5 1 1 (by decide)
  exact ⟨by decide, h.1, h.2 _ _⟩

/-! ### Claim C10 -/

/-- C10: a transcript message carrying an explicit `messageId` leaves both
fallback counters untouched, and consequently a later id-less message of the
same role can be minted an identity colliding with a previously seen
explicit identity, which the upsert then replaces instead of appending: the
concrete part shows explicit `user`/`messageId = 1` producing entry
`user-1`, followed by an id-less user message minted `user-1` again
(counter 0 → 1), whose upsert replaces the earlier entry — the store still
holds exactly one entry, now with the new text. -/
theorem C10_explicit_id_never_advances_counters (s : ClientState) (now : Nat)
    (p : TranscriptPayload) (n : Nat) (h : p.messageId = some n) :
    ((handleAppMessage s now (.transcript p)).globalUserMessageId
        = s.globalUserMessageId ∧
      (handleAppMessage s now (.transcript p)).globalAssistantMessageId
        = s.globalAssistantMessageId) ∧
    ((run [.connectStart, .connectCredsOk, .joinedMeeting,
        .appMessage 1 (.transcript ⟨.user, "A", some 1, none, none⟩)]).messages
        = [{ id := "user-1", role := .user, text := "A", timestamp := 1,
             final := true }] ∧
      (run [.connectStart, .connectCredsOk, .joinedMeeting,
        .appMessage 1 (.transcript ⟨.user, "A", some 1, none, none⟩),
        .appMessage 2 (.transcript ⟨.user, "B", none, none, none⟩)]).messages
        = [{ id := "user-1", role := .user, text := "B", timestamp := 2,
             final := true }]) := by
  constructor
  · constructor
    · simp [handleAppMessage, resolveId, h]
    · simp [handleAppMessage, resolveId, h]
  · exact ⟨by decide, by decide⟩

/-- Witness for C10. -/
theorem C10_explicit_id_never_advances_counters_witness :
    (handleAppMessage initState 4
        (.transcript ⟨.assistant, "t", some 7, none, none⟩)).globalUserMessageId
      = initState.globalUserMessageId ∧
    (handleAppMessage initState 4
        (.transcript ⟨.assistant, "t", some 7, none, none⟩)).globalAssistantMessageId
      = initState.globalAssistantMessageId :=
  (C10_explicit_id_never_advances_counters initState 4
    ⟨.assistant, "t", some 7, none, none⟩ 7 rfl).1

end VoiceClient

namespace VoiceClient

/-! ### Claim C4 -/

/-- C4 counterexample: the fallback counters are module-level (`let` at file
scope in useWebRTC.ts), so they survive a full disconnect/reconnect: after a
first connection consumed `user-1`, the first id-less user fragment of the
next connection is minted `user-2`, not `user-1` — the counter value carried
over, contradicting the per-session scoping in the claim. -/
theorem C4_counterexample :
    (run [.connectStart, .connectCredsOk, .joinedMeeting,
        .appMessage 1 (.transcript ⟨.user, "a", none, none, none⟩),
        .disconnectCall .ok .ok]).globalUserMessageId = 1 ∧
    (run [.connectStart, .connectCredsOk, .joinedMeeting,
        .appMessage 1 (.transcript ⟨.user, "a", none, none, none⟩),
        .disconnectCall .ok .ok, .connectStart, .connectCredsOk, .joinedMeeting,
        .appMessage 2 (.transcript ⟨.user, "b", none, none, none⟩)]).messages
      = [{ id := "user-2", role := .user, text := "b", timestamp := 2,
           final := true }] := by
  refine ⟨by decide, by decide⟩

/-- C4 (amended): id-less fragments draw from two separate per-role
counters — minting for one role pre-increments only that role's counter and
never touches the other — and since no code path ever resets the counters,
the sequence numbers minted for id-less fragments of a fixed role are
strictly increasing across the whole page load; in particular counter values
DO carry over from one connection/session to the next (the counters are
module-scoped, not session-scoped). -/
theorem C4_fallback_counters_module_scoped (s : ClientState)
    (p₁ p₂ : TranscriptPayload) (now₁ : Nat) (mid : List Event)
    (h1 : p₁.messageId = none) (h2 : p₂.messageId = none)
    (hr : p₁.role = p₂.role) :
    ((p₁.role = .user →
        (resolveId s p₁).1 = s.globalUserMessageId + 1 ∧
        (resolveId s p₁).2.globalUserMessageId = s.globalUserMessageId + 1 ∧
        (resolveId s p₁).2.globalAssistantMessageId
          = s.globalAssistantMessageId) ∧
      (p₁.role = .assistant →
        (resolveId s p₁).1 = s.globalAssistantMessageId + 1 ∧
        (resolveId s p₁).2.globalAssistantMessageId
          = s.globalAssistantMessageId + 1 ∧
        (resolveId s p₁).2.globalUserMessageId = s.globalUserMessageId)) ∧
    (resolveId (mid.foldl step (handleAppMessage s now₁ (.transcript p₁))) p₂).1
      > (resolveId s p₁).1 := by
  refine ⟨⟨?_, ?_⟩, ?_⟩
  · intro hu
    simp [resolveId, h1, hu]
  · intro ha
    simp [resolveId, h1, ha]
  · have hmono :=
      foldl_step_counters_le (handleAppMessage s now₁ (.transcript p₁)) mid
    cases hrole : p₁.role with
    | user =>
      have hp2 : p₂.role = .user := by rw [← hr, hrole]
      have hs' : (handleAppMessage s now₁ (.transcript p₁)).globalUserMessageId
          = s.globalUserMessageId + 1 := by
        simp [handleAppMessage, resolveId, h1, hrole]
      simp only [resolveId, h1, h2, hrole, hp2]
      have := hmono.1
      omega
    | assistant =>
      have hp2 : p₂.role = .assistant := by rw [← hr, hrole]
      have hs' : (handleAppMessage s now₁
            (.transcript p₁)).globalAssistantMessageId
          = s.globalAssistantMessageId + 1 := by
        simp [handleAppMessage, resolveId, h1, hrole]
      simp only [resolveId, h1, h2, hrole, hp2]
      have := hmono.2
      omega

/-- Witness for C4: two id-less user fragments processed back to back from
the initial state receive sequence numbers 1 and then 2. -/
theorem C4_fallback_counters_module_scoped_witness :
    (resolveId (([] : List Event).foldl step
        (handleAppMessage initState 0
          (.transcript ⟨.user, "a", none, none, none⟩)))
      (⟨.user, "b", none, none, none⟩ : TranscriptPayload)).1
      > (resolveId initState
          (⟨.user, "a", none, none, none⟩ : TranscriptPayload)).1 :=
  (C4_fallback_counters_module_scoped initState
    ⟨.user, "a", none, none, none⟩ ⟨.user, "b", none, none, none⟩
    0 [] rfl rfl rfl).2

end VoiceClient

namespace VoiceClient

/-! ### Claim C5 -/

theorem mkTranscriptMessage_id (p : TranscriptPayload) (now n : Nat) :
    (mkTranscriptMessage p now n).id = mkCompositeId p.role n := rfl

/-- The transcript branch of `handleAppMessage` for an explicit
`messageId`: the state is unchanged except for the upsert into the caller's
message list. -/
theorem handleAppMessage_transcript_explicit (s : ClientState) (now : Nat)
    (p : TranscriptPayload) (n : Nat) (h : p.messageId = some n) :
    handleAppMessage s now (.transcript p)
      = { s with messages :=
            upsertMessage s.messages (mkTranscriptMessage p now n) } := by
  simp [handleAppMessage, resolveId, h]

/-- Delivering any number of transcript messages that all carry the same
role and the same explicit `messageId` keeps the count of stored entries
for that composite id at most one. -/
theorem foldl_transcript_countP_le (r : Role) (n : Nat)
    (qs : List (TranscriptPayload × Nat)) (s : ClientState)
    (hall : ∀ pt ∈ qs, pt.1.role = r ∧ pt.1.messageId = some n)
    (h : s.messages.countP (fun e => e.id == mkCompositeId r n) ≤ 1) :
    ((qs.foldl (fun st pt => handleAppMessage st pt.2 (.transcript pt.1))
        s).messages).countP (fun e => e.id == mkCompositeId r n) ≤ 1 := by
  induction qs generalizing s with
  | nil => simpa using h
  | cons pt rest ih =>
    rw [List.foldl_cons]
    apply ih (handleAppMessage s pt.2 (.transcript pt.1))
      (fun x hx => hall x (List.mem_cons_of_mem _ hx))
    rw [handleAppMessage_transcript_explicit s pt.2 pt.1 n
      (hall pt (List.mem_cons_self _ _)).2]
    have hid : (mkTranscriptMessage pt.1 pt.2 n).id = mkCompositeId r n := by
      rw [mkTranscriptMessage_id, (hall pt (List.mem_cons_self _ _)).1]
    have hc := countP_upsertMessage s.messages (mkTranscriptMessage pt.1 pt.2 n)
    rw [hid] at hc
    show (upsertMessage s.messages (mkTranscriptMessage pt.1 pt.2 n)).countP
      (fun e => e.id == mkCompositeId r n) ≤ 1
    rw [hc]
    omega

/-- C5: for any non-empty sequence of transcript messages delivered with the
same role `r` and the same explicit `messageId` `n` (written `qs ++ [pt]`,
so `pt` is the last-applied update), starting from any store holding at most
one entry for the composite id `r + "-" + n`, the store afterwards holds
exactly one entry for that id, and that entry is precisely the message
minted from the last update (its `text` and `final`); moreover a message
whose id matches no stored entry is appended as a new entry. -/
theorem C5_same_id_updates_converge (s : ClientState) (r : Role) (n : Nat)
    (qs : List (TranscriptPayload × Nat)) (pt : TranscriptPayload × Nat)
    (hall : ∀ x ∈ qs ++ [pt], x.1.role = r ∧ x.1.messageId = some n)
    (hstart : s.messages.countP (fun e => e.id == mkCompositeId r n) ≤ 1) :
    (((qs ++ [pt]).foldl
        (fun st x => handleAppMessage st x.2 (.transcript x.1)) s).messages).countP
        (fun e => e.id == mkCompositeId r n) = 1 ∧
    (((qs ++ [pt]).foldl
        (fun st x => handleAppMessage st x.2 (.transcript x.1)) s).messages).find?
        (fun e => e.id == mkCompositeId r n)
      = some (mkTranscriptMessage pt.1 pt.2 n) ∧
    ∀ (l : List TranscriptMessage) (m : TranscriptMessage),
      (∀ e ∈ l, ¬e.id = m.id) → upsertMessage l m = l ++ [m] := by
  have hpt : pt.1.role = r ∧ pt.1.messageId = some n :=
    hall pt (List.mem_append_right _ (List.mem_singleton_self pt))
  have hq : ((qs.foldl
      (fun st x => handleAppMessage st x.2 (.transcript x.1)) s).messages).countP
      (fun e => e.id == mkCompositeId r n) ≤ 1 :=
    foldl_transcript_countP_le r n qs s
      (fun x hx => hall x (List.mem_append_left _ hx)) hstart
  have hid : (mkTranscriptMessage pt.1 pt.2 n).id = mkCompositeId r n := by
    rw [mkTranscriptMessage_id, hpt.1]
  refine ⟨?_, ?_, upsertMessage_of_not_mem⟩
  · rw [List.foldl_append, List.foldl_cons, List.foldl_nil,
      handleAppMessage_transcript_explicit _ pt.2 pt.1 n hpt.2]
    have hc := countP_upsertMessage
      ((qs.foldl (fun st x => handleAppMessage st x.2 (.transcript x.1))
        s).messages) (mkTranscriptMessage pt.1 pt.2 n)
    rw [hid] at hc
    show (upsertMessage _ (mkTranscriptMessage pt.1 pt.2 n)).countP
      (fun e => e.id == mkCompositeId r n) = 1
    rw [hc]
    omega
  · rw [List.foldl_append, List.foldl_cons, List.foldl_nil,
      handleAppMessage_transcript_explicit _ pt.2 pt.1 n hpt.2]
    have hf := find?_upsertMessage
      ((qs.foldl (fun st x => handleAppMessage st x.2 (.transcript x.1))
        s).messages) (mkTranscriptMessage pt.1 pt.2 n)
    rw [hid] at hf
    exact hf

/-- Witness for C5: a streaming `final: false` fragment followed by its
`final: true` completion for id `user-3` leaves exactly one stored entry,
carrying the last update's text and final flag. -/
theorem C5_same_id_updates_converge_witness :
    ((([((⟨.user, "x", some 3, none, some false⟩ : TranscriptPayload), 1)]
        ++ [((⟨.user, "y", some 3, none, some true⟩ : TranscriptPayload), 2)]).foldl
        (fun (st : ClientState) (x : TranscriptPayload × Nat) =>
          handleAppMessage st x.2 (.transcript x.1))
        initState).messages).countP
        (fun (e : TranscriptMessage) => e.id == mkCompositeId .user 3) = 1 ∧
    ((([((⟨.user, "x", some 3, none, some false⟩ : TranscriptPayload), 1)]
        ++ [((⟨.user, "y", some 3, none, some true⟩ : TranscriptPayload), 2)]).foldl
        (fun (st : ClientState) (x : TranscriptPayload × Nat) =>
          handleAppMessage st x.2 (.transcript x.1))
        initState).messages).find?
        (fun (e : TranscriptMessage) => e.id == mkCompositeId .user 3)
      = some (mkTranscriptMessage ⟨.user, "y", some 3, none, some true⟩ 2 3) :=
  ⟨(C5_same_id_updates_converge initState .user 3
      [((⟨.user, "x", some 3, none, some false⟩ : TranscriptPayload), 1)]
      ((⟨.user, "y", some 3, none, some true⟩ : TranscriptPayload), 2)
      (by decide) (by decide)).1,
   (C5_same_id_updates_converge initState .user 3
      [((⟨.user, "x", some 3, none, some false⟩ : TranscriptPayload), 1)]
      ((⟨.user, "y", some 3, none, some true⟩ : TranscriptPayload), 2)
      (by decide) (by decide)).2.1⟩

end VoiceClient
